import Mathlib

/-
Verification of the metric-trainer core (src/questions.c, src/questions.h,
src/main.c) under a shallow embedding.  C floats are modelled as exact
rationals; the three rand() draws made per question (category pick,
conversion pick, value fraction) are explicit parameters; the value
fraction f models rand()/RAND_MAX and therefore ranges over [0, 1].
-/

namespace MetricTrainer

/-- Model of C roundf: round half away from zero (used by round_to_precision
and by the whole-numbers branch of generate_random_value). -/
def roundf (x : ℚ) : ℤ := if 0 ≤ x then ⌊x + 0.5⌋ else ⌈x - 0.5⌉

/-- Model of the C cast (int): truncation toward zero. -/
def c_int (x : ℚ) : ℤ := if 0 ≤ x then ⌊x⌋ else ⌈x⌉

/-- Model of C integer division (truncating toward zero), as used in the
easy-mode arithmetic of generate_random_value. -/
def c_div (a b : ℤ) : ℤ := Int.tdiv a b

/-- round_to_precision from questions.c (lines 324-327). -/
def round_to_precision (value : ℚ) (decimal_places : ℕ) : ℚ :=
  let multiplier : ℚ := 10 ^ decimal_places
  (roundf (value * multiplier) : ℚ) / multiplier

/-- category_t from questions.h (CATEGORY_DISTANCE = 0, ..., CATEGORY_COUNT = 4). -/
inductive category_t where
  | distance
  | weight
  | temperature
  | volume
deriving DecidableEq

/-- conversion_direction_t from questions.h. -/
inductive conversion_direction_t where
  | to_metric
  | to_imperial
  | both
deriving DecidableEq

/-- The four categories in enumeration order, as iterated by the C loops
for (i = 0; i < CATEGORY_COUNT; i++). -/
def all_categories : List category_t :=
  [category_t.distance, category_t.weight, category_t.temperature, category_t.volume]

/-- category_selection_t from questions.h: the active flags array and the
num_active counter. -/
structure category_selection_t where
  active : category_t → Bool
  num_active : ℕ

/-- init_categories from questions.c (lines 25-30): all flags cleared. -/
def init_categories : category_selection_t :=
  { active := fun _ => false, num_active := 0 }

/-- The switch-case letter table of parse_category_input:
a = Distance, b = Weight, c = Temperature, d = Volume, anything else invalid. -/
def char_category : Char → Option category_t
  | 'a' => some category_t.distance
  | 'b' => some category_t.weight
  | 'c' => some category_t.temperature
  | 'd' => some category_t.volume
  | _ => none

/-- One valid-letter step of parse_category_input: activate the category and
bump num_active only if it was not already active (duplicate idempotence). -/
def activate (sel : category_selection_t) (cat : category_t) : category_selection_t :=
  if sel.active cat then sel
  else { active := fun c => if c = cat then true else sel.active c,
         num_active := sel.num_active + 1 }

/-- The character loop of parse_category_input (questions.c lines 51-84).
On an invalid character the C code returns false immediately, leaving the
partially-filled out-parameter as it stands; after the loop it returns
num_active > 0.  The function returns (return value, out-parameter). -/
def parse_chars : List Char → category_selection_t → Bool × category_selection_t
  | [], sel => (decide (0 < sel.num_active), sel)
  | ch :: rest, sel =>
    match char_category ch with
    | some cat => parse_chars rest (activate sel cat)
    | none => (false, sel)

/-- parse_category_input from questions.c (lines 32-85).  The C input pointer
may be NULL, modelled by Option; the out-parameter is first zeroed by
init_categories, then filled.  Returns (return value, out-parameter). -/
def parse_category_input (input : Option String) : Bool × category_selection_t :=
  match input with
  | none => (false, init_categories)
  | some s =>
    if s = ("" : String) then (false, init_categories)
    else if s = ("all" : String) then
      (true, { active := fun _ => true, num_active := 4 })
    else parse_chars s.data init_categories

/-- conversion_info_t from questions.h. -/
structure conversion_info_t where
  from_unit : String
  from_abbrev : String
  to_unit : String
  to_abbrev : String
  convert_func : ℚ → ℚ
  min_value : ℚ
  max_value : ℚ
  tolerance_percent : ℚ

/-- miles_to_km from questions.c. -/
def miles_to_km (miles : ℚ) : ℚ := miles * 1.609344

/-- km_to_miles from questions.c. -/
def km_to_miles (km : ℚ) : ℚ := km / 1.609344

/-- inches_to_cm from questions.c. -/
def inches_to_cm (inches : ℚ) : ℚ := inches * 2.54

/-- cm_to_inches from questions.c. -/
def cm_to_inches (cm : ℚ) : ℚ := cm / 2.54

/-- feet_to_meters from questions.c. -/
def feet_to_meters (feet : ℚ) : ℚ := feet * 0.3048

/-- meters_to_feet from questions.c. -/
def meters_to_feet (meters : ℚ) : ℚ := meters / 0.3048

/-- pounds_to_kg from questions.c. -/
def pounds_to_kg (pounds : ℚ) : ℚ := pounds * 0.453592

/-- kg_to_pounds from questions.c. -/
def kg_to_pounds (kg : ℚ) : ℚ := kg / 0.453592

/-- ounces_to_grams from questions.c. -/
def ounces_to_grams (ounces : ℚ) : ℚ := ounces * 28.3495

/-- grams_to_ounces from questions.c. -/
def grams_to_ounces (grams : ℚ) : ℚ := grams / 28.3495

/-- fahrenheit_to_celsius from questions.c. -/
def fahrenheit_to_celsius (fahrenheit : ℚ) : ℚ := (fahrenheit - 32) * 5 / 9

/-- celsius_to_fahrenheit from questions.c. -/
def celsius_to_fahrenheit (celsius : ℚ) : ℚ := celsius * 9 / 5 + 32

/-- celsius_to_kelvin from questions.c. -/
def celsius_to_kelvin (celsius : ℚ) : ℚ := celsius + 273.15

/-- kelvin_to_celsius from questions.c. -/
def kelvin_to_celsius (kelvin : ℚ) : ℚ := kelvin - 273.15

/-- gallons_to_liters from questions.c. -/
def gallons_to_liters (gallons : ℚ) : ℚ := gallons * 3.78541

/-- liters_to_gallons from questions.c. -/
def liters_to_gallons (liters : ℚ) : ℚ := liters / 3.78541

/-- cups_to_ml from questions.c. -/
def cups_to_ml (cups : ℚ) : ℚ := cups * 236.588

/-- ml_to_cups from questions.c. -/
def ml_to_cups (ml : ℚ) : ℚ := ml / 236.588

/-- liters_to_fl_oz from questions.c. -/
def liters_to_fl_oz (liters : ℚ) : ℚ := liters * 33.814

/-- fl_oz_to_liters from questions.c. -/
def fl_oz_to_liters (fl_oz : ℚ) : ℚ := fl_oz / 33.814

/-- ml_to_fl_oz from questions.c. -/
def ml_to_fl_oz (ml : ℚ) : ℚ := ml / 29.5735

/-- fl_oz_to_ml from questions.c. -/
def fl_oz_to_ml (fl_oz : ℚ) : ℚ := fl_oz * 29.5735

/-- distance_conversions from questions.c (lines 443-468). -/
def distance_conversions : List conversion_info_t :=
  [ ⟨"miles", "mi", "kilometers", "km", miles_to_km, 1, 100, 2⟩,
    ⟨"kilometers", "km", "miles", "mi", km_to_miles, 1, 160, 2⟩,
    ⟨"inches", "in", "centimeters", "cm", inches_to_cm, 1, 36, 1.5⟩,
    ⟨"centimeters", "cm", "inches", "in", cm_to_inches, 1, 90, 1.5⟩,
    ⟨"feet", "ft", "meters", "m", feet_to_meters, 1, 50, 2⟩,
    ⟨"meters", "m", "feet", "ft", meters_to_feet, 1, 15, 2⟩ ]

/-- weight_conversions from questions.c (lines 470-487). -/
def weight_conversions : List conversion_info_t :=
  [ ⟨"pounds", "lb", "kilograms", "kg", pounds_to_kg, 1, 200, 2⟩,
    ⟨"kilograms", "kg", "pounds", "lb", kg_to_pounds, 1, 90, 2⟩,
    ⟨"ounces", "oz", "grams", "g", ounces_to_grams, 1, 32, 1.5⟩,
    ⟨"grams", "g", "ounces", "oz", grams_to_ounces, 1, 900, 1.5⟩ ]

/-- temperature_conversions from questions.c (lines 489-506). -/
def temperature_conversions : List conversion_info_t :=
  [ ⟨"degrees Fahrenheit", "°F", "degrees Celsius", "°C", fahrenheit_to_celsius, 0, 100, 1.5⟩,
    ⟨"degrees Celsius", "°C", "degrees Fahrenheit", "°F", celsius_to_fahrenheit, -20, 40, 1.5⟩,
    ⟨"degrees Celsius", "°C", "Kelvin", "K", celsius_to_kelvin, -50, 50, 1⟩,
    ⟨"Kelvin", "K", "degrees Celsius", "°C", kelvin_to_celsius, 200, 350, 1⟩ ]

/-- volume_conversions from questions.c (lines 508-541). -/
def volume_conversions : List conversion_info_t :=
  [ ⟨"gallons", "gal", "liters", "L", gallons_to_liters, 1, 20, 2⟩,
    ⟨"liters", "L", "gallons", "gal", liters_to_gallons, 1, 75, 2⟩,
    ⟨"cups", "cup", "milliliters", "ml", cups_to_ml, 0.5, 8, 1.5⟩,
    ⟨"milliliters", "ml", "cups", "cup", ml_to_cups, 100, 2000, 1.5⟩,
    ⟨"liters", "L", "fluid ounces", "fl oz", liters_to_fl_oz, 1, 3, 2⟩,
    ⟨"fluid ounces", "fl oz", "liters", "L", fl_oz_to_liters, 8, 50, 2⟩,
    ⟨"milliliters", "ml", "fluid ounces", "fl oz", ml_to_fl_oz, 200, 1000, 2⟩,
    ⟨"fluid ounces", "fl oz", "milliliters", "ml", fl_oz_to_ml, 4, 16, 2⟩ ]

/-- get_conversions_for_category from questions.c (lines 543-565); the count
out-parameter is the list length.  The C default branch (out-of-range enum)
is unrepresentable for the total four-constructor Lean enum. -/
def get_conversions_for_category : category_t → List conversion_info_t
  | category_t.distance => distance_conversions
  | category_t.weight => weight_conversions
  | category_t.temperature => temperature_conversions
  | category_t.volume => volume_conversions

/-- The pair of mode globals (g_whole_numbers_mode, g_easy_mode) declared in
questions.h and set once at startup in main.c. -/
structure difficulty_flags where
  whole_numbers_mode : Bool
  easy_mode : Bool

/-- The three difficulty modes of the spec.  main.c maps them to the globals:
default (false, false); -w sets whole; -e sets easy and also whole
("Easy mode implies whole numbers", main.c line 214). -/
inductive DifficultyMode where
  | normal
  | wholeNumbers
  | easy

/-- Flag assignment performed by main.c command-line handling. -/
def DifficultyMode.flags : DifficultyMode → difficulty_flags
  | DifficultyMode.normal => ⟨false, false⟩
  | DifficultyMode.wholeNumbers => ⟨true, false⟩
  | DifficultyMode.easy => ⟨true, true⟩

/-- Whole-numbers branch of generate_random_value (questions.c lines 280-285):
round to nearest integer, then the two sequential re-clamp ifs. -/
def whole_adjust (mn mx x : ℚ) : ℚ :=
  let r1 : ℚ := (roundf x : ℚ)
  let r2 : ℚ := if r1 < mn then (roundf mn : ℚ) else r1
  if mx < r2 then (roundf mx : ℚ) else r2

/-- Lower re-clamp value of the easy-mode branch (questions.c lines 302-309):
the smallest valid value, 1 if min allows it, else min rounded up to the
next multiple of 5 via ((int)(min + 4) / 5) * 5. -/
def easy_lower_clamp (mn : ℚ) : ℚ :=
  if mn ≤ 1 then 1 else ((c_div (c_int (mn + 4)) 5 * 5 : ℤ) : ℚ)

/-- Upper re-clamp value of the easy-mode branch (questions.c lines 310-318):
the largest valid value within max, with the special cases that prefer 1. -/
def easy_upper_clamp (mx : ℚ) : ℚ :=
  let r : ℚ := ((c_div (c_int mx) 5 * 5 : ℤ) : ℚ)
  if 1 ≤ mx ∧ r < 1 then 1
  else if r < 1 ∧ 1 ≤ mx then 1 else r

/-- Mapping step of the easy-mode branch (questions.c lines 289-299):
collapse a truncated result ≤ 2 to 1 when min allows, otherwise round to the
nearest multiple of 5 via ((int_result + 2) / 5) * 5 with minimum 5. -/
def easy_map (mn : ℚ) (i : ℤ) : ℚ :=
  if i ≤ 2 ∧ mn ≤ 1 then 1
  else ((if c_div (i + 2) 5 * 5 < 5 then (5 : ℤ) else c_div (i + 2) 5 * 5) : ℚ)

/-- Easy-mode branch of generate_random_value (questions.c lines 288-319):
truncate to int, map to the easy value set, then re-clamp into bounds. -/
def easy_adjust (mn mx x : ℚ) : ℚ :=
  let v : ℚ := easy_map mn (c_int x)
  let v2 : ℚ := if v < mn then easy_lower_clamp mn else v
  if mx < v2 then easy_upper_clamp mx else v2

/-- generate_random_value from questions.c (lines 269-322).  The fraction f
models (float)rand() / (float)RAND_MAX and ranges over [0, 1].  The early
return fires when min >= max; the whole-numbers and easy adjustments are
applied according to the two mode globals. -/
def generate_random_value (flags : difficulty_flags) (mn mx f : ℚ) : ℚ :=
  if mx ≤ mn then mn
  else
    let x0 := mn + f * (mx - mn)
    let x1 := if flags.whole_numbers_mode then whole_adjust mn mx x0 else x0
    if flags.easy_mode then easy_adjust mn mx x1 else x1

/-- pick_random_category from questions.c (lines 422-440); r models the
rand() draw.  With num_active == 0 the C code silently returns
CATEGORY_DISTANCE (its own comment: "Fallback").  Otherwise it gathers the
active categories in enumeration order and indexes with rand() % count
(count == 0 with num_active != 0 would be C undefined behaviour rand() % 0;
the model's getD default is never reached for well-formed selections). -/
def pick_random_category (sel : category_selection_t) (r : ℕ) : category_t :=
  if sel.num_active = 0 then category_t.distance
  else
    let actives := all_categories.filter (fun c => sel.active c)
    actives.getD (r % actives.length) category_t.distance

/-- question_t from questions.h.  The rendered prompt text embeds the value
and an emoji via snprintf; only its error-sentinel content matters to the
logic, so the model keeps the exact error strings and an abbreviated
success prompt. -/
structure question_t where
  category : category_t
  direction : conversion_direction_t
  from_unit : String
  to_unit : String
  value : ℚ
  correct_answer : ℚ
  question_text : String
  tolerance : ℚ

/-- Placeholder conversion for the List.getD default; generate_question
never reaches it because every category has at least one conversion. -/
def default_conversion : conversion_info_t :=
  ⟨"", "", "", "", fun x => x, 0, 0, 0⟩

/-- The conversion picked by generate_question (questions.c lines 109-110):
index rand() % conversion_count into the category's array. -/
def picked_conversion (sel : category_selection_t) (r1 r2 : ℕ) : conversion_info_t :=
  let conversions := get_conversions_for_category (pick_random_category sel r1)
  conversions.getD (r2 % conversions.length) default_conversion

/-- generate_question from questions.c (lines 87-158).  r1 and r2 model the
two rand() draws (category pick, conversion pick) and f the value draw.
The C zero-initialized sentinel questions ({0} with an error text) are
modelled with all-zero numeric fields. -/
def generate_question (flags : difficulty_flags) (sel : category_selection_t)
    (r1 r2 : ℕ) (f : ℚ) : question_t :=
  if sel.num_active = 0 then
    { category := category_t.distance, direction := conversion_direction_t.to_metric,
      from_unit := "", to_unit := "", value := 0, correct_answer := 0,
      question_text := "Error: No categories selected", tolerance := 0 }
  else
    let chosen_category := pick_random_category sel r1
    let conversions := get_conversions_for_category chosen_category
    if conversions.length = 0 then
      { category := category_t.distance, direction := conversion_direction_t.to_metric,
        from_unit := "", to_unit := "", value := 0, correct_answer := 0,
        question_text := "Error: No conversions available", tolerance := 0 }
    else
      let conv := picked_conversion sel r1 r2
      let value := round_to_precision (generate_random_value flags conv.min_value conv.max_value f) 1
      let answer := round_to_precision (conv.convert_func value) 2
      let tolerance0 := answer * (conv.tolerance_percent / 100)
      let tolerance := if tolerance0 < 0.1 then (0.1 : ℚ) else tolerance0
      { category := chosen_category, direction := conversion_direction_t.to_metric,
        from_unit := conv.from_unit, to_unit := conv.to_unit,
        value := value, correct_answer := answer,
        question_text := "Convert " ++ conv.from_unit ++ " to " ++ conv.to_unit,
        tolerance := tolerance }

/-- Extended float value: a finite rational or one of the IEEE-754
non-finite values that C float arithmetic produces without faulting. -/
inductive XFloat where
  | fin (q : ℚ)
  | posInf
  | negInf
  | nan
deriving DecidableEq

/-- IEEE-754 float division for finite operands (the semantics of the C
expression difference / correct): division by zero yields an infinity of
the numerator's sign, 0/0 yields NaN; no trap or fault occurs. -/
def fdiv (a b : ℚ) : XFloat :=
  if b = 0 then
    if a = 0 then XFloat.nan
    else if 0 < a then XFloat.posInf else XFloat.negInf
  else XFloat.fin (a / b)

/-- Multiplication of an extended float by a positive finite constant
(the * 100.0f step of the percent-error computation). -/
def XFloat.mulPos (x : XFloat) (c : ℚ) : XFloat :=
  match x with
  | XFloat.fin q => XFloat.fin (q * c)
  | XFloat.posInf => XFloat.posInf
  | XFloat.negInf => XFloat.negInf
  | XFloat.nan => XFloat.nan

/-- check_answer from questions.c (lines 160-196).  Returns the is_correct
result together with the percent_error value it computes unconditionally on
line 163; the printf feedback is presentation-only and not modelled. -/
def check_answer (question : question_t) (user_answer : ℚ) : Bool × XFloat :=
  let difference := |user_answer - question.correct_answer|
  let is_correct := decide (difference ≤ question.tolerance)
  let percent_error := (fdiv difference question.correct_answer).mulPos 100
  (is_correct, percent_error)

/-- session_stats_t from questions.h (lines 80-85). -/
structure session_stats_t where
  total_questions : ℕ
  correct_answers : ℕ
  category_totals : category_t → ℕ
  category_correct : category_t → ℕ

/-- The {0} zero-initialisation of session_stats_t in run_practice_session. -/
def init_stats : session_stats_t :=
  { total_questions := 0, correct_answers := 0,
    category_totals := fun _ => 0, category_correct := fun _ => 0 }

/-- update_stats from questions.c (lines 200-214). -/
def update_stats (stats : session_stats_t) (question : question_t) (correct : Bool) :
    session_stats_t :=
  { total_questions := stats.total_questions + 1,
    correct_answers := if correct then stats.correct_answers + 1 else stats.correct_answers,
    category_totals := fun c =>
      if c = question.category then stats.category_totals c + 1 else stats.category_totals c,
    category_correct := fun c =>
      if correct ∧ c = question.category then stats.category_correct c + 1
      else stats.category_correct c }

/-- A session's worth of update_stats calls, starting from the
zero-initialized statistics of run_practice_session. -/
def run_stats (events : List (question_t × Bool)) : session_stats_t :=
  events.foldl (fun s e => update_stats s e.1 e.2) init_stats

/-- Sum of a per-category counter over all four categories. -/
def sum_categories (g : category_t → ℕ) : ℕ := (all_categories.map g).sum

/-- The side conditions on a conversion's sampling range under which the
clamping steps of generate_random_value stay inside [min, max]; they hold
for every entry of the built-in catalog. -/
def catalog_entry_ok (c : conversion_info_t) : Prop :=
  c.min_value < c.max_value ∧
  c.min_value ≤ (roundf c.min_value : ℚ) ∧ (roundf c.min_value : ℚ) ≤ c.max_value ∧
  c.min_value ≤ (roundf c.max_value : ℚ) ∧ (roundf c.max_value : ℚ) ≤ c.max_value ∧
  c.min_value ≤ easy_lower_clamp c.min_value ∧ easy_lower_clamp c.min_value ≤ c.max_value ∧
  c.min_value ≤ easy_upper_clamp c.max_value ∧ easy_upper_clamp c.max_value ≤ c.max_value ∧
  1 ≤ c.max_value ∧
  (c.min_value ≤ 1 ∨ 5 ≤ c_int (c.min_value + 4)) ∧
  (c.min_value ≤ 1 ∨ 2 < c_int c.min_value)

/-- The value set of the easy mode per the spec: exactly 1 or an exact
positive multiple of 5. -/
def easy_value (q : ℚ) : Prop := q = 1 ∨ ∃ k : ℤ, 1 ≤ k ∧ q = 5 * (k : ℚ)

/-- The inputs the spec calls rejected: a NULL pointer, the empty string, or
any string other than the literal "all" containing a character outside the
category letters a, b, c, d. -/
def rejected_input : Option String → Prop
  | none => True
  | some s => s = ("" : String) ∨ (s ≠ ("all" : String) ∧ ∃ ch ∈ s.data, char_category ch = none)

/-- A selection is well formed when its num_active counter agrees with its
flags array; parse_category_input maintains this invariant. -/
def well_formed (sel : category_selection_t) : Prop :=
  sel.num_active = (all_categories.filter (fun c => sel.active c)).length

/-- The consistency invariant of session statistics: the overall counters
equal the sums of the per-category counters, and correct counts never
exceed totals. -/
def stats_invariant (s : session_stats_t) : Prop :=
  s.total_questions = sum_categories s.category_totals ∧
  s.correct_answers = sum_categories s.category_correct ∧
  (∀ c, s.category_correct c ≤ s.category_totals c) ∧
  s.correct_answers ≤ s.total_questions

/-- The constants of a conversion definition that the spec's glossary table
exports: unit pair, sampling range, tolerance percentage. -/
def conversion_constants (c : conversion_info_t) : String × String × ℚ × ℚ × ℚ :=
  (c.from_unit, c.to_unit, c.min_value, c.max_value, c.tolerance_percent)

/-- A question whose correct answer is exactly 0, as produced for the
Fahrenheit-to-Celsius conversion at 32 degrees F (value range 0-100). -/
def zero_question : question_t :=
  { category := category_t.temperature, direction := conversion_direction_t.to_metric,
    from_unit := ("degrees Fahrenheit" : String), to_unit := ("degrees Celsius" : String),
    value := 32, correct_answer := 0,
    question_text := ("Convert degrees Fahrenheit to degrees Celsius" : String),
    tolerance := 0.1 }

/-- The spec's end-to-end example question: 10 miles is 16.09 km, tolerance
2 percent of 16.09 rounded into 0.3218. -/
def example_question : question_t :=
  { category := category_t.distance, direction := conversion_direction_t.to_metric,
    from_unit := ("miles" : String), to_unit := ("kilometers" : String),
    value := 10, correct_answer := 16.09,
    question_text := ("Convert miles to kilometers" : String),
    tolerance := 0.3218 }


/- ===== Helper lemmas ===== -/

/-- Values of truncating division by 5 used by the catalog computations. -/
lemma tdiv5_3 : Int.tdiv 3 5 = 0 := by decide

lemma tdiv5_8 : Int.tdiv 8 5 = 1 := by decide

lemma tdiv5_12 : Int.tdiv 12 5 = 2 := by decide

lemma tdiv5_15 : Int.tdiv 15 5 = 3 := by decide

lemma tdiv5_16 : Int.tdiv 16 5 = 3 := by decide

lemma tdiv5_20 : Int.tdiv 20 5 = 4 := by decide

lemma tdiv5_32 : Int.tdiv 32 5 = 6 := by decide

lemma tdiv5_36 : Int.tdiv 36 5 = 7 := by decide

lemma tdiv5_40 : Int.tdiv 40 5 = 8 := by decide

lemma tdiv5_50 : Int.tdiv 50 5 = 10 := by decide

lemma tdiv5_75 : Int.tdiv 75 5 = 15 := by decide

lemma tdiv5_90 : Int.tdiv 90 5 = 18 := by decide

lemma tdiv5_100 : Int.tdiv 100 5 = 20 := by decide

lemma tdiv5_104 : Int.tdiv 104 5 = 20 := by decide

lemma tdiv5_160 : Int.tdiv 160 5 = 32 := by decide

lemma tdiv5_200 : Int.tdiv 200 5 = 40 := by decide

lemma tdiv5_204 : Int.tdiv 204 5 = 40 := by decide

lemma tdiv5_350 : Int.tdiv 350 5 = 70 := by decide

lemma tdiv5_900 : Int.tdiv 900 5 = 180 := by decide

lemma tdiv5_1000 : Int.tdiv 1000 5 = 200 := by decide

lemma tdiv5_2000 : Int.tdiv 2000 5 = 400 := by decide

/-- Every entry of the built-in conversion catalog satisfies the clamp side
conditions (checked entry by entry over the concrete constants). -/
lemma catalog_ok (cat : category_t) (c : conversion_info_t)
    (hc : c ∈ get_conversions_for_category cat) : catalog_entry_ok c := by
  cases cat <;>
    simp only [get_conversions_for_category, distance_conversions, weight_conversions,
      temperature_conversions, volume_conversions, List.mem_cons, List.not_mem_nil,
      or_false] at hc <;>
    rcases hc with rfl | rfl | rfl | rfl | rfl | rfl | rfl | rfl <;>
    norm_num [catalog_entry_ok, roundf, c_int, c_div, easy_lower_clamp, easy_upper_clamp,
      Int.ceil_neg, tdiv5_3, tdiv5_8, tdiv5_12, tdiv5_15, tdiv5_16, tdiv5_20, tdiv5_32,
      tdiv5_36, tdiv5_40, tdiv5_50, tdiv5_75, tdiv5_90, tdiv5_100, tdiv5_104, tdiv5_160,
      tdiv5_200, tdiv5_204, tdiv5_350, tdiv5_900, tdiv5_1000, tdiv5_2000]

/-- The uniform draw min + f * (max - min) stays in [min, max] for f in [0, 1]. -/
lemma uniform_mem (mn mx f : ℚ) (hle : mn ≤ mx) (hf0 : 0 ≤ f) (hf1 : f ≤ 1) :
    mn ≤ mn + f * (mx - mn) ∧ mn + f * (mx - mn) ≤ mx := by
  constructor <;> nlinarith

/-- The common clamp pattern of generate_random_value: replace a candidate
below min by L, then a result above max by U; if L and U are in range, so is
the outcome, whatever the candidate was. -/
lemma clamp_mem (mn mx L U v : ℚ) (hL1 : mn ≤ L) (hL2 : L ≤ mx)
    (hU1 : mn ≤ U) (hU2 : U ≤ mx) :
    mn ≤ (if mx < (if v < mn then L else v) then U else (if v < mn then L else v)) ∧
    (if mx < (if v < mn then L else v) then U else (if v < mn then L else v)) ≤ mx := by
  by_cases h1 : v < mn
  · simp only [if_pos h1]
    rw [if_neg (not_lt.mpr hL2)]
    exact ⟨hL1, hL2⟩
  · simp only [if_neg h1]
    by_cases h2 : mx < v
    · rw [if_pos h2]
      exact ⟨hU1, hU2⟩
    · rw [if_neg h2]
      exact ⟨not_lt.mp h1, not_lt.mp h2⟩

/-- whole_adjust lands in [min, max] whenever the rounded bounds do. -/
lemma whole_adjust_mem (mn mx x : ℚ)
    (h1 : mn ≤ (roundf mn : ℚ)) (h2 : (roundf mn : ℚ) ≤ mx)
    (h3 : mn ≤ (roundf mx : ℚ)) (h4 : (roundf mx : ℚ) ≤ mx) :
    mn ≤ whole_adjust mn mx x ∧ whole_adjust mn mx x ≤ mx := by
  simp only [whole_adjust]
  exact clamp_mem mn mx _ _ _ h1 h2 h3 h4

/-- easy_adjust lands in [min, max] whenever the two clamp values do. -/
lemma easy_adjust_mem (mn mx x : ℚ)
    (hL1 : mn ≤ easy_lower_clamp mn) (hL2 : easy_lower_clamp mn ≤ mx)
    (hU1 : mn ≤ easy_upper_clamp mx) (hU2 : easy_upper_clamp mx ≤ mx) :
    mn ≤ easy_adjust mn mx x ∧ easy_adjust mn mx x ≤ mx := by
  simp only [easy_adjust]
  exact clamp_mem mn mx _ _ _ hL1 hL2 hU1 hU2

/-- A rational that is 5 times an integer and at least 1 is a positive
multiple of 5. -/
lemma easy_value_of_five_mul (k : ℤ) (h : (1 : ℚ) ≤ 5 * (k : ℚ)) :
    easy_value (5 * (k : ℚ)) := by
  refine Or.inr ⟨k, ?_, rfl⟩
  by_contra hk
  push_neg at hk
  have hk' : k ≤ 0 := by omega
  have : (5 : ℚ) * (k : ℚ) ≤ 0 := by
    have : ((k : ℚ)) ≤ 0 := by exact_mod_cast hk'
    nlinarith
  linarith

/-- The easy-mode lower clamp value is 1 or a positive multiple of 5,
given the catalog side condition on min. -/
lemma easy_lower_clamp_shape (mn : ℚ) (h : mn ≤ 1 ∨ 5 ≤ c_int (mn + 4)) :
    easy_value (easy_lower_clamp mn) := by
  unfold easy_lower_clamp
  by_cases h1 : mn ≤ 1
  · rw [if_pos h1]
    exact Or.inl rfl
  · rw [if_neg h1]
    rcases h with h | h
    · exact absurd h h1
    · have hk : 1 ≤ c_div (c_int (mn + 4)) 5 := by
        unfold c_div
        rw [Int.tdiv_eq_ediv (by omega) (by norm_num)]
        omega
      have heq : ((c_div (c_int (mn + 4)) 5 * 5 : ℤ) : ℚ) =
          5 * ((c_div (c_int (mn + 4)) 5 : ℤ) : ℚ) := by
        push_cast
        ring
      rw [heq]
      refine easy_value_of_five_mul _ ?_
      have hq : (1 : ℚ) ≤ ((c_div (c_int (mn + 4)) 5 : ℤ) : ℚ) := by exact_mod_cast hk
      nlinarith

/-- The easy-mode upper clamp value is 1 or a positive multiple of 5
whenever max is at least 1. -/
lemma easy_upper_clamp_shape (mx : ℚ) (h : 1 ≤ mx) :
    easy_value (easy_upper_clamp mx) := by
  simp only [easy_upper_clamp]
  by_cases h1 : 1 ≤ mx ∧ ((c_div (c_int mx) 5 * 5 : ℤ) : ℚ) < 1
  · rw [if_pos h1]
    exact Or.inl rfl
  · rw [if_neg h1]
    by_cases h2 : ((c_div (c_int mx) 5 * 5 : ℤ) : ℚ) < 1 ∧ 1 ≤ mx
    · rw [if_pos h2]
      exact Or.inl rfl
    · rw [if_neg h2]
      have hr : (1 : ℚ) ≤ ((c_div (c_int mx) 5 * 5 : ℤ) : ℚ) := by
        by_contra hlt
        push_neg at hlt
        exact h2 ⟨hlt, h⟩
      have : ((c_div (c_int mx) 5 * 5 : ℤ) : ℚ) = 5 * ((c_div (c_int mx) 5 : ℤ) : ℚ) := by
        push_cast
        ring
      rw [this]
      exact easy_value_of_five_mul _ (this ▸ hr)

/-- The mapped value of the easy-mode branch (before re-clamping) is 1 or a
positive multiple of 5, unconditionally. -/
lemma easy_map_shape (mn : ℚ) (i : ℤ) : easy_value (easy_map mn i) := by
  unfold easy_map
  by_cases h1 : i ≤ 2 ∧ mn ≤ 1
  · rw [if_pos h1]
    exact Or.inl rfl
  · rw [if_neg h1]
    by_cases h2 : c_div (i + 2) 5 * 5 < 5
    · rw [if_pos h2]
      exact Or.inr ⟨1, le_refl 1, by norm_num⟩
    · rw [if_neg h2]
      push_neg at h2
      refine Or.inr ⟨c_div (i + 2) 5, by omega, ?_⟩
      ring

/-- Every value produced by the easy-mode branch is 1 or a positive multiple
of 5, given the catalog side conditions. -/
lemma easy_adjust_shape (mn mx x : ℚ) (hmx : 1 ≤ mx)
    (hmn : mn ≤ 1 ∨ 5 ≤ c_int (mn + 4)) :
    easy_value (easy_adjust mn mx x) := by
  simp only [easy_adjust]
  by_cases hlo : easy_map mn (c_int x) < mn
  · rw [if_pos hlo]
    by_cases hup : mx < easy_lower_clamp mn
    · rw [if_pos hup]
      exact easy_upper_clamp_shape mx hmx
    · rw [if_neg hup]
      exact easy_lower_clamp_shape mn hmn
  · rw [if_neg hlo]
    by_cases hup : mx < easy_map mn (c_int x)
    · rw [if_pos hup]
      exact easy_upper_clamp_shape mx hmx
    · rw [if_neg hup]
      exact easy_map_shape mn (c_int x)

/-- Collapse case of the easy-mode branch: a truncated value at most 2 with
min allowing 1 produces exactly 1 (and the re-clamps keep it). -/
lemma easy_adjust_one (mn mx x : ℚ) (h1 : mn ≤ 1) (h2 : 1 ≤ mx)
    (h3 : c_int x ≤ 2) : easy_adjust mn mx x = 1 := by
  have hmap : easy_map mn (c_int x) = 1 := by
    unfold easy_map
    exact if_pos ⟨h3, h1⟩
  simp only [easy_adjust, hmap]
  rw [if_neg (not_lt.mpr h1), if_neg (not_lt.mpr h2)]

/-- The C cast (int) is monotone on rationals. -/
lemma c_int_mono {x y : ℚ} (h : x ≤ y) : c_int x ≤ c_int y := by
  unfold c_int
  by_cases hx : 0 ≤ x <;> by_cases hy : 0 ≤ y
  · rw [if_pos hx, if_pos hy]
    exact Int.floor_mono h
  · exact absurd (hx.trans h) hy
  · rw [if_neg hx, if_pos hy]
    have hc : ⌈x⌉ ≤ 0 := by
      have := Int.ceil_mono (α := ℚ) (not_le.mp hx).le
      rwa [Int.ceil_zero] at this
    have hf : (0 : ℤ) ≤ ⌊y⌋ := Int.le_floor.mpr (by exact_mod_cast hy)
    omega
  · rw [if_neg hx, if_neg hy]
    exact Int.ceil_mono h

/-- The C cast (int) of an integer-valued rational is that integer. -/
lemma c_int_intCast (n : ℤ) : c_int (n : ℚ) = n := by
  unfold c_int
  split
  · exact Int.floor_intCast n
  · exact Int.ceil_intCast n

/-- The character loop returns false as soon as it meets an invalid
character, whatever selection state it has accumulated. -/
lemma parse_chars_invalid (l : List Char) (sel : category_selection_t)
    (h : ∃ ch ∈ l, char_category ch = none) : (parse_chars l sel).1 = false := by
  induction l generalizing sel with
  | nil => simp at h
  | cons ch rest ih =>
    obtain ⟨c, hc, hcc⟩ := h
    rcases List.mem_cons.mp hc with rfl | hc
    · simp [parse_chars, hcc]
    · cases hcase : char_category ch with
      | none => simp [parse_chars, hcase]
      | some cat =>
        simp only [parse_chars, hcase]
        exact ih _ ⟨c, hc, hcc⟩

/-- Every built-in category has at least one conversion definition. -/
lemma conversions_length_pos (cat : category_t) :
    0 < (get_conversions_for_category cat).length := by
  cases cat <;> decide

/-- On a non-empty selection, the question produced by generate_question
carries exactly the category chosen by pick_random_category. -/
lemma generate_question_category (flags : difficulty_flags) (sel : category_selection_t)
    (r1 r2 : ℕ) (f : ℚ) (h : sel.num_active ≠ 0) :
    (generate_question flags sel r1 r2 f).category = pick_random_category sel r1 := by
  have hlen := conversions_length_pos (pick_random_category sel r1)
  simp only [generate_question]
  rw [if_neg h, if_neg (Nat.pos_iff_ne_zero.mp hlen)]

/-- The selection parsed from "ac" yields Distance for even draws and
Temperature for odd draws. -/
lemma pick_ac (r : ℕ) :
    pick_random_category (parse_category_input (some ("ac"))).2 r =
      (if r % 2 = 0 then category_t.distance else category_t.temperature) := by
  unfold pick_random_category
  rw [if_neg (by decide)]
  have hfilter : (all_categories.filter
      (fun c => (parse_category_input (some ("ac"))).2.active c)) =
      [category_t.distance, category_t.temperature] := by decide
  rw [hfilter]
  rcases Nat.mod_two_eq_zero_or_one r with h | h <;>
    simp [h, List.getD]

/-- Bumping a per-category counter at one category raises the sum over all
categories by exactly one. -/
lemma sum_categories_bump (g : category_t → ℕ) (qc : category_t) :
    sum_categories (fun c => if c = qc then g c + 1 else g c) = sum_categories g + 1 := by
  cases qc <;> simp [sum_categories, all_categories] <;> ring

/-- update_stats preserves the statistics invariant. -/
lemma update_stats_invariant (s : session_stats_t) (q : question_t) (b : Bool)
    (h : stats_invariant s) : stats_invariant (update_stats s q b) := by
  obtain ⟨h1, h2, h3, h4⟩ := h
  have hbump_t := sum_categories_bump s.category_totals q.category
  have hbump_c := sum_categories_bump s.category_correct q.category
  cases b with
  | false =>
    refine ⟨?_, ?_, ?_, ?_⟩ <;>
      simp only [update_stats, Bool.false_eq_true, false_and, if_false]
    · rw [hbump_t]
      omega
    · exact h2
    · intro c
      by_cases hc : c = q.category
      · rw [if_pos hc]
        exact (h3 c).trans (Nat.le_succ _)
      · rw [if_neg hc]
        exact h3 c
    · omega
  | true =>
    refine ⟨?_, ?_, ?_, ?_⟩ <;>
      simp only [update_stats, eq_self_iff_true, if_true, true_and]
    · rw [hbump_t]
      omega
    · rw [hbump_c]
      omega
    · intro c
      by_cases hc : c = q.category
      · rw [if_pos hc, if_pos hc]
        exact Nat.succ_le_succ (h3 c)
      · rw [if_neg hc, if_neg hc]
        exact h3 c
    · omega

/-- The statistics invariant propagates along any sequence of updates. -/
lemma foldl_stats_invariant (l : List (question_t × Bool)) (s : session_stats_t)
    (h : stats_invariant s) :
    stats_invariant (l.foldl (fun s e => update_stats s e.1 e.2) s) := by
  induction l generalizing s with
  | nil => exact h
  | cons e rest ih => exact ih _ (update_stats_invariant s e.1 e.2 h)

/- ===== Claims ===== -/

/-- Claim C1, counterexample: the catalog does not give Fahrenheit-to-Celsius
the 2 percent tolerance the claim states; the entry returned for the
temperature category carries tolerance_percent 1.5. -/
theorem C1_counterexample :
    ∃ c ∈ get_conversions_for_category category_t.temperature,
      c.from_unit = ("degrees Fahrenheit" : String) ∧
      c.to_unit = ("degrees Celsius" : String) ∧
      c.tolerance_percent ≠ 2 := by
  refine ⟨_, List.Mem.head _, rfl, rfl, ?_⟩
  norm_num

/-- Claim C1 as amended: the catalog constants are preserved exactly as in
the source, with Fahrenheit-to-Celsius and Celsius-to-Fahrenheit carrying
tolerance 1.5 percent (not 2 percent): miles-km 2 percent with ranges 1-100
and 1-160, inches-cm 1.5 percent, Celsius-Kelvin 1 percent, cups-ml 1.5
percent, as listed entry by entry for every category. -/
theorem C1_catalog_constants :
    (get_conversions_for_category category_t.distance).map conversion_constants =
      [ (("miles" : String), ("kilometers" : String), (1 : ℚ), (100 : ℚ), (2 : ℚ)),
        (("kilometers" : String), ("miles" : String), (1 : ℚ), (160 : ℚ), (2 : ℚ)),
        (("inches" : String), ("centimeters" : String), (1 : ℚ), (36 : ℚ), (1.5 : ℚ)),
        (("centimeters" : String), ("inches" : String), (1 : ℚ), (90 : ℚ), (1.5 : ℚ)),
        (("feet" : String), ("meters" : String), (1 : ℚ), (50 : ℚ), (2 : ℚ)),
        (("meters" : String), ("feet" : String), (1 : ℚ), (15 : ℚ), (2 : ℚ)) ] ∧
    (get_conversions_for_category category_t.weight).map conversion_constants =
      [ (("pounds" : String), ("kilograms" : String), (1 : ℚ), (200 : ℚ), (2 : ℚ)),
        (("kilograms" : String), ("pounds" : String), (1 : ℚ), (90 : ℚ), (2 : ℚ)),
        (("ounces" : String), ("grams" : String), (1 : ℚ), (32 : ℚ), (1.5 : ℚ)),
        (("grams" : String), ("ounces" : String), (1 : ℚ), (900 : ℚ), (1.5 : ℚ)) ] ∧
    (get_conversions_for_category category_t.temperature).map conversion_constants =
      [ (("degrees Fahrenheit" : String), ("degrees Celsius" : String), (0 : ℚ), (100 : ℚ), (1.5 : ℚ)),
        (("degrees Celsius" : String), ("degrees Fahrenheit" : String), (-20 : ℚ), (40 : ℚ), (1.5 : ℚ)),
        (("degrees Celsius" : String), ("Kelvin" : String), (-50 : ℚ), (50 : ℚ), (1 : ℚ)),
        (("Kelvin" : String), ("degrees Celsius" : String), (200 : ℚ), (350 : ℚ), (1 : ℚ)) ] ∧
    (get_conversions_for_category category_t.volume).map conversion_constants =
      [ (("gallons" : String), ("liters" : String), (1 : ℚ), (20 : ℚ), (2 : ℚ)),
        (("liters" : String), ("gallons" : String), (1 : ℚ), (75 : ℚ), (2 : ℚ)),
        (("cups" : String), ("milliliters" : String), (0.5 : ℚ), (8 : ℚ), (1.5 : ℚ)),
        (("milliliters" : String), ("cups" : String), (100 : ℚ), (2000 : ℚ), (1.5 : ℚ)),
        (("liters" : String), ("fluid ounces" : String), (1 : ℚ), (3 : ℚ), (2 : ℚ)),
        (("fluid ounces" : String), ("liters" : String), (8 : ℚ), (50 : ℚ), (2 : ℚ)),
        (("milliliters" : String), ("fluid ounces" : String), (200 : ℚ), (1000 : ℚ), (2 : ℚ)),
        (("fluid ounces" : String), ("milliliters" : String), (4 : ℚ), (16 : ℚ), (2 : ℚ)) ] :=
  ⟨rfl, rfl, rfl, rfl⟩

/-- Claim C2, counterexample: the rejected input "ax" (invalid second
character) makes parse_category_input return false, yet the out-parameter
has Distance activated and num_active 1: partial activation is observable
after a rejection. -/
theorem C2_counterexample :
    (parse_category_input (some ("ax"))).1 = false ∧
    (parse_category_input (some ("ax"))).2.active category_t.distance = true ∧
    (parse_category_input (some ("ax"))).2.num_active = 1 := by
  decide

/-- Claim C2 as amended: every rejected input (null, empty, or containing a
character outside the category letters while not being "all") makes
parse_category_input return rejection, and for null or empty input no
category is activated; however, valid letters preceding the first invalid
character remain activated in the out-parameter. -/
theorem C2_rejection (input : Option String) (h : rejected_input input) :
    (parse_category_input input).1 = false ∧
    (∀ c, (parse_category_input none).2.active c = false) ∧
    (parse_category_input none).2.num_active = 0 ∧
    (∀ c, (parse_category_input (some (""))).2.active c = false) ∧
    (parse_category_input (some (""))).2.num_active = 0 := by
  refine ⟨?_, fun c => rfl, rfl, fun c => rfl, rfl⟩
  match input with
  | none => rfl
  | some s =>
    rcases h with rfl | ⟨hall, hinv⟩
    · rfl
    · by_cases hs : s = ("" : String)
      · subst hs
        obtain ⟨c, hc, -⟩ := hinv
        simp at hc
      · simp only [parse_category_input, if_neg hs, if_neg hall]
        exact parse_chars_invalid s.data init_categories hinv

/-- Witness for C2_rejection at the concrete rejected input "xq". -/
theorem C2_witness :
    rejected_input (some ("xq")) ∧ (parse_category_input (some ("xq"))).1 = false :=
  have h : rejected_input (some ("xq")) := Or.inr ⟨by decide, 'x', by decide, rfl⟩
  ⟨h, (C2_rejection (some ("xq")) h).1⟩

/-- Claim C3, counterexample: on a question whose correct answer is 0,
check_answer does not skip the percent-error computation; the division on
line 163 of questions.c is executed with divisor 0 and (under IEEE float
semantics) produces a positive infinity, while grading still returns
normally. -/
theorem C3_counterexample :
    zero_question.correct_answer = 0 ∧
    (check_answer zero_question 5).2 = XFloat.posInf ∧
    (check_answer zero_question 5).1 = false := by
  refine ⟨rfl, ?_, ?_⟩ <;>
    norm_num [check_answer, zero_question, fdiv, XFloat.mulPos]

/-- Claim C3 as amended: when the correct answer is exactly 0, check_answer
still decides correctness solely by the absolute-tolerance comparison and
returns normally (no fault), but it does not skip the percent-error
computation: the division by zero is performed, yielding an infinite
percent error (NaN when the difference is also 0). -/
theorem C3_zero_answer (q : question_t) (hq : q.correct_answer = 0) (u : ℚ) :
    (check_answer q u).1 = decide (|u| ≤ q.tolerance) ∧
    (check_answer q u).2 = (if u = 0 then XFloat.nan else XFloat.posInf) := by
  simp only [check_answer, hq, sub_zero]
  constructor
  · trivial
  · by_cases hu : u = 0
    · simp [hu, fdiv, XFloat.mulPos]
    · have habs : |u| ≠ 0 := fun hc => hu (abs_eq_zero.mp hc)
      have hpos : 0 < |u| := abs_pos.mpr hu
      simp [fdiv, habs, hpos, XFloat.mulPos, hu]

/-- Witness for C3_zero_answer at the concrete zero-answer question. -/
theorem C3_witness :
    zero_question.correct_answer = 0 ∧
    (check_answer zero_question 3).1 = decide (|(3 : ℚ)| ≤ zero_question.tolerance) ∧
    (check_answer zero_question 3).2 = (if (3 : ℚ) = 0 then XFloat.nan else XFloat.posInf) :=
  ⟨rfl, (C3_zero_answer zero_question rfl 3).1, (C3_zero_answer zero_question rfl 3).2⟩

/-- Claim C4: for every question generated from a non-empty selection, the
stored tolerance equals the computed answer times tolerance_percent / 100,
except that a product below 0.1 is replaced by exactly 0.1; hence the
tolerance is always at least 0.1. -/
theorem C4_tolerance_floor (flags : difficulty_flags) (sel : category_selection_t)
    (r1 r2 : ℕ) (f : ℚ) (h : sel.num_active ≠ 0) :
    (generate_question flags sel r1 r2 f).tolerance =
      (if (generate_question flags sel r1 r2 f).correct_answer *
            ((picked_conversion sel r1 r2).tolerance_percent / 100) < 0.1
       then (0.1 : ℚ)
       else (generate_question flags sel r1 r2 f).correct_answer *
            ((picked_conversion sel r1 r2).tolerance_percent / 100)) ∧
    (0.1 : ℚ) ≤ (generate_question flags sel r1 r2 f).tolerance := by
  have hlen := conversions_length_pos (pick_random_category sel r1)
  simp only [generate_question]
  rw [if_neg h, if_neg (Nat.pos_iff_ne_zero.mp hlen)]
  constructor
  · rfl
  · split
    · exact le_refl _
    · exact le_of_not_lt (by assumption)

/-- Witness for C4_tolerance_floor on the selection parsed from "a". -/
theorem C4_witness :
    (parse_category_input (some ("a"))).2.num_active ≠ 0 ∧
    (0.1 : ℚ) ≤ (generate_question ⟨false, false⟩
      (parse_category_input (some ("a"))).2 0 0 0).tolerance :=
  ⟨by decide,
   (C4_tolerance_floor ⟨false, false⟩ (parse_category_input (some ("a"))).2 0 0 0 (by decide)).2⟩

/-- Claim C5: check_answer grades correct exactly when the absolute
difference is at most the tolerance (so the boundary is accepted and
anything farther rejected), and an exact submission is always correct for
any nonnegative tolerance. -/
theorem C5_grading (q : question_t) (u : ℚ) :
    ((check_answer q u).1 = true ↔ |u - q.correct_answer| ≤ q.tolerance) ∧
    (0 ≤ q.tolerance → (check_answer q q.correct_answer).1 = true) := by
  constructor
  · simp [check_answer]
  · intro h
    simp [check_answer, h]

/-- Nonnegativity of the example question's tolerance. -/
lemma example_question_tolerance_nonneg : 0 ≤ example_question.tolerance := by
  norm_num [example_question]

/-- Witness for C5_grading at the spec's 10-miles example question. -/
theorem C5_witness :
    ((check_answer example_question 16).1 = true ↔
      |(16 : ℚ) - example_question.correct_answer| ≤ example_question.tolerance) ∧
    (check_answer example_question example_question.correct_answer).1 = true :=
  ⟨(C5_grading example_question 16).1,
   (C5_grading example_question example_question.correct_answer).2
     example_question_tolerance_nonneg⟩

/-- Claim C6: for every conversion definition of the built-in catalog and
every difficulty mode, generate_random_value stays in the inclusive range
[min_value, max_value] for every outcome f in [0, 1] of the random draw. -/
theorem C6_range (cat : category_t) (c : conversion_info_t)
    (hc : c ∈ get_conversions_for_category cat) (mode : DifficultyMode)
    (f : ℚ) (hf0 : 0 ≤ f) (hf1 : f ≤ 1) :
    c.min_value ≤ generate_random_value mode.flags c.min_value c.max_value f ∧
    generate_random_value mode.flags c.min_value c.max_value f ≤ c.max_value := by
  obtain ⟨hlt, h1, h2, h3, h4, hL1, hL2, hU1, hU2, -, -, -⟩ := catalog_ok cat c hc
  have hx := uniform_mem c.min_value c.max_value f hlt.le hf0 hf1
  cases mode with
  | normal =>
    simp only [DifficultyMode.flags, generate_random_value, if_neg (not_le.mpr hlt),
      Bool.false_eq_true, if_false]
    exact hx
  | wholeNumbers =>
    simp only [DifficultyMode.flags, generate_random_value, if_neg (not_le.mpr hlt),
      Bool.false_eq_true, if_false, if_true]
    exact whole_adjust_mem c.min_value c.max_value _ h1 h2 h3 h4
  | easy =>
    simp only [DifficultyMode.flags, generate_random_value, if_neg (not_le.mpr hlt), if_true]
    exact easy_adjust_mem c.min_value c.max_value _ hL1 hL2 hU1 hU2

/-- Witness for C6_range at the miles-to-kilometers definition in normal
mode with draw 0. -/
theorem C6_witness :
    (1 : ℚ) ≤ generate_random_value DifficultyMode.normal.flags 1 100 0 ∧
    generate_random_value DifficultyMode.normal.flags 1 100 0 ≤ 100 :=
  C6_range category_t.distance
    ⟨("miles" : String), ("mi" : String), ("kilometers" : String), ("km" : String),
      miles_to_km, 1, 100, 2⟩
    (List.Mem.head _) DifficultyMode.normal 0 (le_refl 0) zero_le_one

/-- Claim C7: in easy mode, for every catalog definition and every draw
f in [0, 1], the generated value is exactly 1 or an exact positive multiple
of 5 (so never 0, and the smallest value other than 1 is 5); moreover a
rounded intermediate of at most 2 collapses to exactly 1. -/
theorem C7_easy_values (cat : category_t) (c : conversion_info_t)
    (hc : c ∈ get_conversions_for_category cat)
    (f : ℚ) (_hf0 : 0 ≤ f) (_hf1 : f ≤ 1) :
    easy_value (generate_random_value DifficultyMode.easy.flags c.min_value c.max_value f) ∧
    (c_int (whole_adjust c.min_value c.max_value
        (c.min_value + f * (c.max_value - c.min_value))) ≤ 2 →
      generate_random_value DifficultyMode.easy.flags c.min_value c.max_value f = 1) := by
  obtain ⟨hlt, h1, h2, h3, h4, hL1, hL2, hU1, hU2, hmx1, hlc, hmc⟩ := catalog_ok cat c hc
  simp only [DifficultyMode.flags, generate_random_value, if_neg (not_le.mpr hlt), if_true]
  constructor
  · exact easy_adjust_shape c.min_value c.max_value _ hmx1 hlc
  · intro hi
    rcases hmc with hm1 | hm2
    · exact easy_adjust_one c.min_value c.max_value _ hm1 hmx1 hi
    · exfalso
      have hw := (whole_adjust_mem c.min_value c.max_value
        (c.min_value + f * (c.max_value - c.min_value)) h1 h2 h3 h4).1
      have := c_int_mono hw
      omega

/-- Truncation of the whole-numbers stage at the miles-to-kilometers
definition with draw 0 is at most 2. -/
lemma c7_collapse_at_one : c_int (whole_adjust 1 100 (1 + 0 * (100 - 1))) ≤ 2 := by
  norm_num [whole_adjust, roundf, c_int]

/-- Witness for C7_easy_values at the miles-to-kilometers definition with
draw 0: the generated easy value is in the easy set and in fact collapses
to 1. -/
theorem C7_witness :
    easy_value (generate_random_value DifficultyMode.easy.flags 1 100 0) ∧
    generate_random_value DifficultyMode.easy.flags 1 100 0 = 1 :=
  have h := C7_easy_values category_t.distance
    ⟨("miles" : String), ("mi" : String), ("kilometers" : String), ("km" : String),
      miles_to_km, 1, 100, 2⟩
    (List.Mem.head _) 0 (le_refl 0) zero_le_one
  ⟨h.1, h.2 c7_collapse_at_one⟩

/-- Claim C8: pick_random_category only returns categories whose active flag
is set, for every well-formed non-empty selection and every draw; and every
question generated from the selection parsed from "ac" has category
Distance or Temperature. -/
theorem C8_active_only :
    (∀ (sel : category_selection_t) (r : ℕ), well_formed sel → sel.num_active ≠ 0 →
      sel.active (pick_random_category sel r) = true) ∧
    (∀ (flags : difficulty_flags) (r1 r2 : ℕ) (f : ℚ),
      (generate_question flags (parse_category_input (some ("ac"))).2 r1 r2 f).category =
        category_t.distance ∨
      (generate_question flags (parse_category_input (some ("ac"))).2 r1 r2 f).category =
        category_t.temperature) := by
  constructor
  · intro sel r hwf hne
    unfold pick_random_category
    rw [if_neg hne]
    have hlen : (all_categories.filter (fun c => sel.active c)).length ≠ 0 := by
      rw [well_formed] at hwf
      omega
    have hmod : r % (all_categories.filter (fun c => sel.active c)).length <
        (all_categories.filter (fun c => sel.active c)).length :=
      Nat.mod_lt _ (Nat.pos_of_ne_zero hlen)
    rw [List.getD_eq_getElem _ _ hmod]
    exact (List.mem_filter.mp (List.getElem_mem hmod)).2
  · intro flags r1 r2 f
    rw [generate_question_category flags _ r1 r2 f (by decide), pick_ac r1]
    by_cases h : r1 % 2 = 0
    · left
      rw [if_pos h]
    · right
      rw [if_neg h]

/-- Witness for C8_active_only: the selection parsed from "b" is well formed
and non-empty, and its picked category has its flag set; the "ac" question
at concrete draws lands in Distance or Temperature. -/
theorem C8_witness :
    (parse_category_input (some ("b"))).2.active
      (pick_random_category (parse_category_input (some ("b"))).2 5) = true ∧
    ((generate_question ⟨false, false⟩ (parse_category_input (some ("ac"))).2 3 1 0).category =
      category_t.distance ∨
     (generate_question ⟨false, false⟩ (parse_category_input (some ("ac"))).2 3 1 0).category =
      category_t.temperature) :=
  ⟨C8_active_only.1 (parse_category_input (some ("b"))).2 5
     (by unfold well_formed; decide) (by decide),
   C8_active_only.2 ⟨false, false⟩ 3 1 0⟩

/-- Claim C9, counterexample: calling pick_random_category on the empty
selection does not fault; it silently returns the default CATEGORY_DISTANCE
(the C code's own comment calls it a fallback). -/
theorem C9_counterexample :
    init_categories.num_active = 0 ∧
    pick_random_category init_categories 0 = category_t.distance :=
  ⟨rfl, rfl⟩

/-- Claim C9 as amended: on any selection with num_active 0 and any draw,
pick_random_category silently returns the default category Distance rather
than treating the call as a programming-error fault. -/
theorem C9_empty_fallback (sel : category_selection_t) (r : ℕ)
    (h : sel.num_active = 0) :
    pick_random_category sel r = category_t.distance := by
  unfold pick_random_category
  rw [if_pos h]

/-- Witness for C9_empty_fallback at the freshly initialized selection. -/
theorem C9_witness :
    init_categories.num_active = 0 ∧
    pick_random_category init_categories 7 = category_t.distance :=
  ⟨rfl, C9_empty_fallback init_categories 7 rfl⟩

/-- Claim C10: starting from zero-initialized statistics, after any sequence
of update_stats calls the total equals the sum of the per-category totals,
the correct count equals the sum of the per-category correct counts, each
per-category correct count is at most its total, and hence the overall
correct count never exceeds the overall total. -/
theorem C10_stats_invariant (events : List (question_t × Bool)) :
    (run_stats events).total_questions =
      sum_categories (run_stats events).category_totals ∧
    (run_stats events).correct_answers =
      sum_categories (run_stats events).category_correct ∧
    (∀ c, (run_stats events).category_correct c ≤ (run_stats events).category_totals c) ∧
    (run_stats events).correct_answers ≤ (run_stats events).total_questions :=
  foldl_stats_invariant events init_stats ⟨rfl, rfl, fun _ => le_refl 0, le_refl 0⟩

end MetricTrainer
